import Mathlib

/-!
Verification of the morning-briefing curation pipeline against its
natural-language specification.  The Python source under scrutiny is
shallowly embedded below: pure string/list functions are translated
directly, the fixed keyword tables are transcribed verbatim, and the
stateful validation loop becomes explicit state passing.
-/

namespace Briefing

/-! ### ASCII string utilities shared by the embedded functions -/

/-- ASCII lowercasing of one character (Python `str.lower` on ASCII input). -/
def lowerChar (c : Char) : Char :=
  if 'A' ≤ c ∧ c ≤ 'Z' then Char.ofNat (c.toNat + 32) else c

/-- Lowercase a character list. -/
def lowerList (s : List Char) : List Char := s.map lowerChar

/-- Lowercase a string (ASCII). -/
def pyLower (s : String) : String := ⟨lowerList s.data⟩

/-- Characters matched by the regex class `[a-z0-9]`. -/
def isTokenChar (c : Char) : Bool :=
  ('a' ≤ c ∧ c ≤ 'z') ∨ ('0' ≤ c ∧ c ≤ '9')

/-- A regex word character (`\w`), ASCII fragment: letters, digits, `_`. -/
def isWordChar (c : Char) : Bool := c.isAlphanum ∨ c = '_'

/-- Worker for `findRuns`: `cur` is the run collected so far, reversed. -/
def findRunsGo (p : Char → Bool) (cur : List Char) : List Char → List (List Char)
  | [] => if cur = [] then [] else [cur.reverse]
  | c :: rest =>
    if p c then findRunsGo p (c :: cur) rest
    else if cur = [] then findRunsGo p [] rest
    else cur.reverse :: findRunsGo p [] rest

/-- `re.findall(p+, s)` for a character class `p`: the maximal runs of
characters satisfying `p`. -/
def findRuns (p : Char → Bool) (s : List Char) : List (List Char) :=
  findRunsGo p [] s

/-- Python substring test (`needle in hay`). -/
def listContains : List Char → List Char → Bool
  | hay, needle =>
    needle.isPrefixOf hay ||
      match hay with
      | [] => false
      | _ :: rest => listContains rest needle

/-- Python `sub in s` on strings. -/
def strContains (hay needle : String) : Bool := listContains hay.data needle.data

/-- Word-ness of an optional character; `none` (start or end of the text)
counts as a non-word position, as in `re`. -/
def optWord : Option Char → Bool
  | none => false
  | some c => isWordChar c

/-- One candidate match position for `\b needle \b`: the needle is a prefix
of the remaining text and both edges are word boundaries. -/
def boundaryHere (needle : List Char) (prev : Option Char) (hay : List Char) : Bool :=
  needle.isPrefixOf hay && (optWord prev != optWord needle.head?) &&
    (optWord needle.getLast? != optWord (hay.drop needle.length).head?)

/-- `re.search(r'\b' + needle + r'\b', hay)` for a literal needle:
scan every position, tracking the previous character. -/
def boundaryOccurs (needle : List Char) : Option Char → List Char → Bool
  | prev, [] => boundaryHere needle prev []
  | prev, c :: rest =>
    boundaryHere needle prev (c :: rest) || boundaryOccurs needle (some c) rest

/-- Word-boundary search on strings. -/
def strBoundary (hay needle : String) : Bool := boundaryOccurs needle.data none hay.data

/-! ### Lexical similarity engine (`run_pipeline._normalize_words`,
`run_pipeline._is_duplicate_topic`) -/

/-- `_STOP_WORDS` from `run_pipeline.py`. -/
def _STOP_WORDS : List String := [
  "a", "an", "the", "and", "or", "but", "in", "on", "at", "to", "for",
  "of", "is", "are", "was", "were", "be", "been", "being", "have", "has",
  "had", "do", "does", "did", "will", "would", "could", "should", "may",
  "can", "with", "from", "by", "as", "its", "it", "this", "that", "than",
  "not", "no", "so", "up", "out", "if", "about", "into", "over", "after",
  "new", "more", "also", "how", "what", "when", "who", "why", "all", "just",
  "says", "said", "report", "reports", "according", "per", "via",
  "your", "their", "our", "his", "her", "you", "they", "them"]

/-- `_BRAND_ALIASES` from `run_pipeline.py`. -/
def _BRAND_ALIASES : List (String × String) := [
  ("facebook", "meta"), ("instagram", "meta"), ("whatsapp", "meta"),
  ("google", "alphabet"), ("youtube", "alphabet"), ("deepmind", "alphabet"),
  ("chatgpt", "openai"), ("gpt", "openai"), ("dall-e", "openai"), ("dalle", "openai"),
  ("claude", "anthropic"),
  ("bing", "microsoft"), ("github", "microsoft"), ("copilot", "microsoft"),
  ("alexa", "amazon"), ("aws", "amazon")]

/-- `suf.isSuffixOf w` as Python `w.endswith(suf)`. -/
def endsWithL (w suf : List Char) : Bool := suf.isSuffixOf w

/-- Python `w[:-n]`. -/
def dropLastN (w : List Char) (n : Nat) : List Char := w.take (w.length - n)

/-- The suffix-stripping `if/elif` chain of `_normalize_words`. -/
def stripSuffix (w : List Char) : List Char :=
  if endsWithL w "ated".data ∧ w.length > 5 then dropLastN w 1
  else if endsWithL w "ied".data ∧ w.length > 4 then dropLastN w 3 ++ ['y']
  else if endsWithL w "ing".data ∧ w.length > 5 then dropLastN w 3
  else if endsWithL w "ed".data ∧ w.length > 4 then dropLastN w 2
  else if endsWithL w "ies".data ∧ w.length > 4 then dropLastN w 3 ++ ['y']
  else if endsWithL w "es".data ∧ w.length > 4 then dropLastN w 2
  else if endsWithL w "s".data ∧ ¬ endsWithL w "ss".data ∧ w.length > 3 then dropLastN w 1
  else w

/-- `_BRAND_ALIASES.get(w, w)`. -/
def aliasOf (w : String) : String := (List.lookup w _BRAND_ALIASES).getD w

/-- `_normalize_words`: tokenize the lowercased headline, drop stop words and
short tokens, strip suffixes, canonicalize brand aliases, collect into a set. -/
def _normalize_words (headline : String) : Finset String :=
  (findRuns isTokenChar (lowerList headline.data)).foldl
    (fun acc t =>
      let w : String := ⟨t⟩
      if w ∈ _STOP_WORDS ∨ w.length ≤ 2 then acc
      else insert (aliasOf ⟨stripSuffix t⟩) acc)
    ∅

/-- Core of `_is_duplicate_topic` on the two normalized word sets.
The float thresholds `0.40` and `0.55` are compared by cross-multiplication:
`i/u ≥ 0.40 ↔ 5*i ≥ 2*u` and `i/s ≥ 0.55 ↔ 20*i ≥ 11*s` (exact, since the
float literals round to the values nearest `2/5` and `11/20` and the
quotients of these small cardinalities are never within one ulp of them). -/
def dupCore (A B : Finset String) : Bool :=
  if A = ∅ ∨ B = ∅ then false
  else if 2 * (A ∪ B).card ≤ 5 * (A ∩ B).card then true
  else if 3 ≤ (A ∩ B).card ∧ 11 * min A.card B.card ≤ 20 * (A ∩ B).card then true
  else false

/-- `_is_duplicate_topic` from `run_pipeline.py`. -/
def _is_duplicate_topic (a b : String) : Bool :=
  dupCore (_normalize_words a) (_normalize_words b)

theorem dupCore_comm (A B : Finset String) : dupCore A B = dupCore B A := by
  simp only [dupCore, Finset.inter_comm A B, Finset.union_comm A B,
    Nat.min_comm A.card B.card, or_comm (a := A = ∅) (b := B = ∅)]

theorem isDup_symm (a b : String) :
    _is_duplicate_topic a b = _is_duplicate_topic b a := dupCore_comm _ _

theorem normalize_words_scenarioA :
    _normalize_words "OpenAI introduces ads in ChatGPT" =
      ({"openai", "introduc", "ads"} : Finset String) := by decide

/-! ### Source tier classifier (`phase1_validator.py`) -/

/-- `TIER1_SOURCES` from `phase1_validator.py`. -/
def TIER1_SOURCES : List String := [
  "bbc", "bbc world", "bbc news", "bbc sport",
  "reuters", "reuters business",
  "ap", "ap news", "associated press",
  "al jazeera",
  "npr", "npr news",
  "nyt", "new york times", "the new york times",
  "wsj", "wall street journal", "the wall street journal",
  "the guardian", "guardian"]

/-- `TIER2_SOURCES` from `phase1_validator.py`. -/
def TIER2_SOURCES : List String := [
  "bloomberg", "cnbc", "financial times", "ft", "politico",
  "washington post", "the washington post", "wapo",
  "cnn", "pbs", "pbs newshour", "abc news", "cbs news", "nbc news", "espn",
  "techcrunch", "techcrunch ai", "the verge", "the verge ai",
  "fortune", "wired", "time", "time magazine", "axios", "the atlantic",
  "the economist", "foreign affairs", "foreign policy"]

/-- `TIER3_SOURCES` from `phase1_validator.py`. -/
def TIER3_SOURCES : List String := [
  "olympics.com", "nbc olympics", "nbcolympics",
  "yahoo sports", "bleacher report",
  "unhcr", "balkan insight", "just security", "world",
  "defense one", "ukr. pravda", "ukrainian pravda",
  "military times", "space.com", "the diplomat",
  "pr newswire", "prnewswire", "globenewswire", "business wire",
  "ramaonhealthcare",
  "times of israel",
  "healthcare dive", "fierce healthcare", "modern healthcare",
  "becker\x27s hospital review", "beckers hospital review",
  "stat news", "kff health news",
  "mit technology review", "ars technica", "the information",
  "techcrunch ai"]

/-- `LOCAL_SOURCES` from `phase1_validator.py`. -/
def LOCAL_SOURCES : List String := [
  "east bay times", "mercury news", "san jose mercury news",
  "patch", "danville sanramon", "danville san ramon",
  "sf standard", "san francisco standard",
  "sf chronicle", "san francisco chronicle", "sfchronicle",
  "abc7", "abc7 san francisco", "abc7 news",
  "kqed",
  "pleasanton weekly", "tri-valley herald",
  "oakland tribune",
  "bay area news group",
  "marin independent journal"]

/-- `DOMAIN_TO_SOURCE` from `phase1_validator.py`, in insertion order. -/
def DOMAIN_TO_SOURCE : List (String × String) := [
  ("nbcolympics.com", "NBC Olympics"),
  ("olympics.com", "Olympics.com"),
  ("yahoosports", "Yahoo Sports"),
  ("sports.yahoo.com", "Yahoo Sports"),
  ("bleacherreport.com", "Bleacher Report"),
  ("prnewswire.com", "PR Newswire"),
  ("globenewswire.com", "GlobeNewsWire"),
  ("businesswire.com", "Business Wire"),
  ("timesofisrael.com", "Times of Israel"),
  ("ramaonhealthcare.com", "RamaOnHealthcare")]

/-- Python `\s` whitespace characters. -/
def isSpaceChar (c : Char) : Bool :=
  c = ' ' ∨ c = '\t' ∨ c = '\n' ∨ c = '\x0d' ∨ c = '\x0b' ∨ c = '\x0c'

/-- Strip trailing whitespace. -/
def rstripWs (s : List Char) : List Char := (s.reverse.dropWhile isSpaceChar).reverse

/-- Python `str.strip()`. -/
def pyStrip (s : List Char) : List Char := rstripWs (s.dropWhile isSpaceChar)

/-- Remove a trailing parenthetical, as `re.sub(r"\s*\([^)]*\)\s*$", "", name)`
does: if the name ends with `)` preceded by a `(`-segment containing no other
`)`, drop from that `(` (the leftmost candidate) and any whitespace before it. -/
def stripParenEnd (t : List Char) : List Char :=
  match t.reverse with
  | ')' :: rrest =>
    let seg := rrest.takeWhile (fun c => c ≠ ')')
    let segF := seg.reverse
    let idx := segF.indexOf '('
    if idx < segF.length then
      rstripWs (t.take (t.length - 1 - seg.length + idx))
    else t
  | _ => t

/-- `_normalize_source_name` from `phase1_validator.py`. -/
def _normalize_source_name (name : String) : String :=
  pyLower ⟨pyStrip (stripParenEnd (rstripWs name.data))⟩

/-- Result record of `classify_source_tier`. -/
structure TierInfo where
  tier : Nat
  tier_label : String
  ga_eligible : Bool
  note : String
deriving DecidableEq, Repr

/-- The first domain fragment of `DOMAIN_TO_SOURCE` contained in the
lowercased URL, with its mapped source name (the loop's `break`). -/
def domainLookup (urlLower : String) : Option String :=
  (DOMAIN_TO_SOURCE.find? fun p => strContains urlLower p.1).map (·.2)

/-- The domain remap of `classify_source_tier`: when a fragment matches, the
normalized name is replaced by the lowercased mapped source name. -/
def remapName (name0 : String) (urlLower : String) : String :=
  match domainLookup urlLower with
  | some mapped => pyLower mapped
  | none => name0

/-- The tier decision of `classify_source_tier` over the two checked names
(`names_to_check` is a set, so each tier test is a disjunction over both):
tier number, GA eligibility, tier label. -/
def tierDecision (n raw : String) : Nat × Bool × String :=
  if n ∈ TIER1_SOURCES ∨ raw ∈ TIER1_SOURCES then (1, true, "Tier 1")
  else if n ∈ TIER2_SOURCES ∨ raw ∈ TIER2_SOURCES then (2, true, "Tier 2")
  else if n ∈ TIER3_SOURCES ∨ raw ∈ TIER3_SOURCES then (3, false, "Tier 3")
  else if n ∈ LOCAL_SOURCES ∨ raw ∈ LOCAL_SOURCES then (99, false, "Local")
  else (0, false, "Unknown")

/-- The `note` text of `classify_source_tier` for each tier number. -/
def tierNote (tier : Nat) (source_name : String) : String :=
  if tier = 3 then
    "FLAGGED: \x27" ++ source_name ++ "\x27 is Tier 3 (niche/single-topic). " ++
      "Find Tier 1/2 coverage for the same story before including in GA."
  else if tier = 99 then
    "BLOCKED: \x27" ++ source_name ++ "\x27 is a local paper. NEVER use for GA."
  else if tier = 0 then
    "UNKNOWN: \x27" ++ source_name ++ "\x27 not in tier database. Classify manually. " ++
      "Check spec Tier 1/2 lists before including in GA."
  else ""

/-- `classify_source_tier` from `phase1_validator.py`. -/
def classify_source_tier (source_name : String) (url : String) : TierInfo :=
  let nameLower := remapName (_normalize_source_name source_name) (pyLower url)
  let raw := pyLower ⟨pyStrip source_name.data⟩
  let d := tierDecision nameLower raw
  ⟨d.1, d.2.2, d.2.1, tierNote d.1 source_name⟩

/-! ### Initial URL deduplication (`phase1_validator.deduplicate_candidates`) -/

/-- A discovery-stage candidate record (the fields `deduplicate_candidates`
touches, plus identifying fields). -/
structure Cand where
  url : String
  headline : String
  source : String
deriving DecidableEq, Repr

/-- The URL normalization inside `deduplicate_candidates`:
`candidate.get("url", "").split("?")[0].rstrip("/")`. -/
def normalizeUrlCode (u : String) : String :=
  ⟨(u.data.takeWhile (fun c => c ≠ '?')).reverse.dropWhile (fun c => c = '/') |>.reverse⟩

/-- Worker for `deduplicate_candidates`, carrying the `seen_urls` set. -/
def dedupUrlGo (seen : List String) : List Cand → List Cand
  | [] => []
  | c :: rest =>
    if normalizeUrlCode c.url ≠ "" ∧ normalizeUrlCode c.url ∉ seen then
      c :: dedupUrlGo (normalizeUrlCode c.url :: seen) rest
    else dedupUrlGo seen rest

/-- `deduplicate_candidates` from `phase1_validator.py`. -/
def deduplicate_candidates (candidates : List Cand) : List Cand :=
  dedupUrlGo [] candidates

/-- The spec's stated URL normalization, for comparison with the code's:
scheme stripped, query stripped, trailing slash removed. -/
def specNormalizeUrl (u : String) : String :=
  let noScheme :=
    if "https://".data.isPrefixOf u.data then u.data.drop 8
    else if "http://".data.isPrefixOf u.data then u.data.drop 7
    else u.data
  ⟨(noScheme.takeWhile (fun c => c ≠ '?')).reverse.dropWhile (fun c => c = '/') |>.reverse⟩

/-! ### Age computation (`phase1_validator.compute_age_hours`) -/

/-- `compute_age_hours` from `phase1_validator.py`, on the already-parsed
time difference in seconds: `max(0, int(delta.total_seconds() / 3600))`.
Python `int()` truncates toward zero, which is `Int.tdiv`. -/
def compute_age_hours (deltaSeconds : Int) : Int :=
  max 0 (deltaSeconds.tdiv 3600)

/-! ### Read-time estimation (`phase1_validator.estimate_read_time`) -/

/-- Python `round(wc / 250)` (banker's rounding at exact halves). -/
def pyRoundDiv250 (wc : Nat) : Nat :=
  if 2 * (wc % 250) < 250 then wc / 250
  else if 250 < 2 * (wc % 250) then wc / 250 + 1
  else if wc / 250 % 2 = 0 then wc / 250 else wc / 250 + 1

/-- `estimate_read_time` from `phase1_validator.py`, as a function of the
word count of the page's extracted text:
`read_time = max(1, round(word_count / 250)); return min(max(read_time, 2), 20)`. -/
def estimate_read_time (wordCount : Nat) : Nat :=
  min (max (max 1 (pyRoundDiv250 wordCount)) 2) 20

/-! ### Concurrent validation engine (`data_collector._validate_concurrent`) -/

/-- Verdict buckets of the validation stage. -/
inductive Bucket where
  | valid
  | stale
  | unverified
  | error
deriving DecidableEq, Repr

/-- Outcome of a successful fetch, as consumed by `validate_one`:
`pubAge` is `some a` when `extract_publication_date` found a date and
`compute_age_hours` returned `a` (itself an `Option`, `none` on a parse
failure); `searchAge` likewise for the search-date fallback. -/
structure FetchedPage where
  pubAge : Option (Option Nat)
  searchAge : Option (Option Nat)
deriving DecidableEq, Repr

instance : DecidableEq (Except String FetchedPage) := fun x y =>
  match x, y with
  | .error a, .error b =>
    if h : a = b then isTrue (by subst h; rfl)
    else isFalse (by intro hh; cases hh; exact h rfl)
  | .error _, .ok _ => isFalse (by intro h; cases h)
  | .ok _, .error _ => isFalse (by intro h; cases h)
  | .ok a, .ok b =>
    if h : a = b then isTrue (by subst h; rfl)
    else isFalse (by intro hh; cases hh; exact h rfl)

/-- The effects of one candidate's validation, shallowly embedded: whether
the URL is a Google News wrapper, the resolver's outcome, and the fetch
outcome (`Except.error` models a raised request exception). -/
structure CandEnv where
  isGoogleNews : Bool
  resolved : Option String
  fetch : Except String FetchedPage
deriving DecidableEq, Repr

/-- `MAX_AGE_HOURS` from `phase1_validator.py`. -/
def MAX_AGE_HOURS : Nat := 48

/-- The verdict drawn from a computed age:
`if age is not None and age <= MAX_AGE_HOURS: valid else: stale`. -/
def ageVerdict : Option Nat → Bucket
  | some a => if a ≤ MAX_AGE_HOURS then .valid else .stale
  | none => .stale

/-- The verdict of a successfully fetched page: the extracted date decides,
else the search-date fallback, else `unverified`. -/
def pageVerdict (page : FetchedPage) : Bucket :=
  match page.pubAge with
  | some age => ageVerdict age
  | none =>
    match page.searchAge with
    | some age => ageVerdict age
    | none => .unverified

/-- `validate_one` from `data_collector._validate_concurrent`: resolution
failure on a wrapper URL is an immediate error; a fetch exception is caught
and becomes an error; otherwise the verdict follows the extracted date, the
search-date fallback, or `unverified`. -/
def validate_one (e : CandEnv) : Bucket :=
  if e.isGoogleNews ∧ e.resolved = none then .error
  else
    match e.fetch with
    | .error _ => .error
    | .ok page => pageVerdict page

/-- The four result buckets collected by `_validate_concurrent`. -/
structure ValBuckets where
  valid : List CandEnv
  stale : List CandEnv
  unverified : List CandEnv
  error : List CandEnv
deriving DecidableEq, Repr

/-- Append one candidate's result to its bucket. -/
def addToBucket (b : ValBuckets) (e : CandEnv) : ValBuckets :=
  match validate_one e with
  | .valid => { b with valid := b.valid ++ [e] }
  | .stale => { b with stale := b.stale ++ [e] }
  | .unverified => { b with unverified := b.unverified ++ [e] }
  | .error => { b with error := b.error ++ [e] }

/-- `_validate_concurrent` from `data_collector.py`: every candidate is
validated and its result appended to exactly one bucket (the worker-pool
completion order only permutes buckets' contents; the fold is the
order-independent content of the loop). -/
def _validate_concurrent (l : List CandEnv) : ValBuckets :=
  l.foldl addToBucket ⟨[], [], [], []⟩

/-! ### Scoring and categorization (`phase2_generator.py`) -/

/-- A validated article as consumed by the scorer and section assigner. -/
structure Article where
  headline : String
  url : String
  source : String
  is_local : Bool
deriving DecidableEq, Repr

/-- `PAYZEN_KEYWORDS["high"]` from `phase2_generator.py`. -/
def PAYZEN_high : List String := [
  "patient financing", "payment plan", "patient payment", "self-pay",
  "out-of-pocket", "healthcare affordability", "medical debt", "revenue cycle",
  "rcm", "patient collections", "bad debt", "financial assistance",
  "medicaid eligibility", "cedar", "flywire", "payzen", "care card",
  "health system financial", "provider revenue", "telehealth reimbursement"]

/-- `PAYZEN_KEYWORDS["medium"]`. -/
def PAYZEN_medium : List String := [
  "openai", "anthropic", "claude", "chatgpt", "gpt-4", "gpt-5",
  "gemini", "deepmind", "nvidia", "meta ai", "mistral",
  "ai coding", "claude code", "codex", "cursor", "ai agent", "enterprise ai",
  "ai-native", "coding assistant", "developer tools", "ai adoption",
  "health system", "hospital", "cleveland clinic", "banner health",
  "geisinger", "sutter health", "optum", "unitedhealth", "cms",
  "medicare", "medicaid", "aca", "affordable care act"]

/-- `PAYZEN_KEYWORDS["low"]`. -/
def PAYZEN_low : List String := [
  "healthcare", "fintech", "startup", "series", "funding",
  "artificial intelligence", "machine learning", "automation",
  "valuation", "billion", "investment"]

/-- `PAYZEN_KEYWORDS["market"]`. -/
def PAYZEN_market : List String := [
  "market crash", "stock crash", "market selloff", "sell-off",
  "recession", "bear market", "market correction", "downturn",
  "nasdaq plunge", "dow plunge", "s&p plunge", "market plunge",
  "fed rate", "rate hike", "rate cut", "interest rate",
  "unemployment spike", "job losses", "mass layoff",
  "bank failure", "banking crisis", "liquidity crisis",
  "tariff", "tariffs", "trade war", "economic shock",
  "ipo", "market cap", "trillion",
  "bubble", "overvalued", "market warning",
  "market decoupled", "economy decoupled",
  "analyst warns", "economist warns", "economist criticizes",
  "economy", "gdp", "inflation", "earnings", " layoffs",
  "stocks", "deficit", "government shutdown",
  "imf", "fed ", "trade deal", "trade policy",
  "trade strategy", "trade deficit", "trade talks", "job cuts",
  "jobs report", "labor market", "debt ceiling",
  "fiscal", "treasury", "central bank"]

/-- `PAYZEN_KEYWORDS["geopolitical"]`. -/
def PAYZEN_geopolitical : List String := [
  "sanctions", "nato", "opec",
  "g7 ", "g20 ", "united nations", "diplomacy", "embassy",
  "ceasefire", "peace deal", "arms deal", "nuclear talks",
  "nuclear deal", "territorial", "sovereignty"]

/-- `_PRESS_RELEASE_SIGNALS` from `phase2_generator.py`. -/
def _PRESS_RELEASE_SIGNALS : List String := [
  "completes deployment", "announces partnership", "launches new",
  "expands operations", "signs agreement", "selected by",
  "chosen to provide", "awards contract", "deploys",
  "enterprise-wide", "go-live", "rolls out", "now available",
  "partners with", "teams up with", "integrates with",
  "unveils new", "introduces new", "expands into",
  "achieves milestone", "reaches milestone", "surpasses",
  "named leader", "recognized as", "positioned as",
  "completes acquisition", "acquires", "enters partnership",
  "signs deal", "inks deal", "secures contract",
  "completes rollout", "completes migration"]

/-- `_HIGH_SIGNAL_SOURCES` from `phase2_generator.py`, in insertion order. -/
def _HIGH_SIGNAL_SOURCES : List (String × Int) := [
  ("techmeme", 5),
  ("techcrunch", 3), ("techcrunch ai", 3),
  ("the verge", 3), ("the verge ai", 3),
  ("ars technica", 2),
  ("wired", 2),
  ("the information", 3),
  ("mit technology review", 2)]

/-- Number of keywords of `kws` occurring as substrings of `text`. -/
def countMatches (text : String) (kws : List String) : Nat :=
  (kws.filter (fun k => strContains text k)).length

/-- `score_article` from `phase2_generator.py`: additive keyword weights,
one-shot market and geopolitical boosts (the loops `break` on first match),
a first-match source boost, and the press-release penalty. -/
def score_article (a : Article) : Int :=
  let text := pyLower (a.headline ++ " " ++ a.source)
  let base : Int :=
    10 * countMatches text PAYZEN_high + 5 * countMatches text PAYZEN_medium +
      countMatches text PAYZEN_low
  let market : Int := if PAYZEN_market.any (fun k => strContains text k) then 7 else 0
  let geo : Int := if PAYZEN_geopolitical.any (fun k => strContains text k) then 5 else 0
  let srcBoost : Int :=
    match _HIGH_SIGNAL_SOURCES.find? (fun p => strContains (pyLower a.source) p.1) with
    | some p => p.2
    | none => 0
  let prHits := countMatches text _PRESS_RELEASE_SIGNALS
  let prPenalty : Int := if 2 ≤ prHits then 25 else if prHits = 1 then 5 else 0
  base + market + geo + srcBoost - prPenalty

/-- `COUNTRY_FLAGS` from `phase2_generator.py`, in Python dict literal
semantics: duplicate keys keep their first position with the last assigned
value (only "brussels" is re-assigned, to the Belgian flag; all other
repeated keys repeat the same value and are dropped here). -/
def COUNTRY_FLAGS : List (String × String) := [
  ("us", "🇺🇸"), ("usa", "🇺🇸"), ("united states", "🇺🇸"), ("america", "🇺🇸"),
  ("uk", "🇬🇧"), ("britain", "🇬🇧"), ("england", "🇬🇧"), ("united kingdom", "🇬🇧"),
  ("china", "🇨🇳"), ("chinese", "🇨🇳"), ("beijing", "🇨🇳"),
  ("russia", "🇷🇺"), ("russian", "🇷🇺"), ("moscow", "🇷🇺"), ("putin", "🇷🇺"),
  ("ukraine", "🇺🇦"), ("ukrainian", "🇺🇦"), ("kyiv", "🇺🇦"),
  ("israel", "🇮🇱"), ("israeli", "🇮🇱"), ("gaza", "🇮🇱"), ("hamas", "🇮🇱"),
  ("palestine", "🇵🇸"), ("palestinian", "🇵🇸"),
  ("iran", "🇮🇷"), ("iranian", "🇮🇷"), ("tehran", "🇮🇷"),
  ("india", "🇮🇳"), ("indian", "🇮🇳"), ("delhi", "🇮🇳"), ("mumbai", "🇮🇳"),
  ("japan", "🇯🇵"), ("japanese", "🇯🇵"), ("tokyo", "🇯🇵"),
  ("korea", "🇰🇷"), ("korean", "🇰🇷"), ("seoul", "🇰🇷"),
  ("north korea", "🇰🇵"), ("pyongyang", "🇰🇵"),
  ("germany", "🇩🇪"), ("german", "🇩🇪"), ("berlin", "🇩🇪"),
  ("france", "🇫🇷"), ("french", "🇫🇷"), ("paris", "🇫🇷"),
  ("italy", "🇮🇹"), ("italian", "🇮🇹"), ("rome", "🇮🇹"), ("milan", "🇮🇹"),
  ("cortina", "🇮🇹"),
  ("spain", "🇪🇸"), ("spanish", "🇪🇸"), ("madrid", "🇪🇸"),
  ("brazil", "🇧🇷"), ("brazilian", "🇧🇷"),
  ("mexico", "🇲🇽"), ("mexican", "🇲🇽"),
  ("canada", "🇨🇦"), ("canadian", "🇨🇦"), ("ottawa", "🇨🇦"), ("toronto", "🇨🇦"),
  ("australia", "🇦🇺"), ("australian", "🇦🇺"), ("sydney", "🇦🇺"),
  ("saudi", "🇸🇦"), ("saudi arabia", "🇸🇦"), ("riyadh", "🇸🇦"),
  ("turkey", "🇹🇷"), ("turkish", "🇹🇷"), ("ankara", "🇹🇷"), ("erdogan", "🇹🇷"),
  ("pakistan", "🇵🇰"), ("pakistani", "🇵🇰"),
  ("afghanistan", "🇦🇫"), ("afghan", "🇦🇫"), ("kabul", "🇦🇫"), ("taliban", "🇦🇫"),
  ("syria", "🇸🇾"), ("syrian", "🇸🇾"), ("damascus", "🇸🇾"),
  ("iraq", "🇮🇶"), ("iraqi", "🇮🇶"), ("baghdad", "🇮🇶"),
  ("egypt", "🇪🇬"), ("egyptian", "🇪🇬"), ("cairo", "🇪🇬"),
  ("south africa", "🇿🇦"),
  ("nigeria", "🇳🇬"), ("nigerian", "🇳🇬"), ("lagos", "🇳🇬"),
  ("kenya", "🇰🇪"), ("kenyan", "🇰🇪"), ("nairobi", "🇰🇪"),
  ("ethiopia", "🇪🇹"), ("ethiopian", "🇪🇹"),
  ("zimbabwe", "🇿🇼"), ("harare", "🇿🇼"),
  ("somalia", "🇸🇴"), ("somali", "🇸🇴"), ("mogadishu", "🇸🇴"),
  ("lebanon", "🇱🇧"), ("lebanese", "🇱🇧"), ("beirut", "🇱🇧"),
  ("bangladesh", "🇧🇩"), ("bangladeshi", "🇧🇩"), ("dhaka", "🇧🇩"),
  ("myanmar", "🇲🇲"), ("burmese", "🇲🇲"),
  ("vietnam", "🇻🇳"), ("vietnamese", "🇻🇳"), ("hanoi", "🇻🇳"),
  ("indonesia", "🇮🇩"), ("indonesian", "🇮🇩"), ("jakarta", "🇮🇩"),
  ("philippines", "🇵🇭"), ("philippine", "🇵🇭"), ("manila", "🇵🇭"),
  ("thailand", "🇹🇭"), ("thai", "🇹🇭"), ("bangkok", "🇹🇭"),
  ("singapore", "🇸🇬"),
  ("malaysia", "🇲🇾"), ("malaysian", "🇲🇾"), ("kuala lumpur", "🇲🇾"),
  ("colombia", "🇨🇴"), ("colombian", "🇨🇴"), ("bogota", "🇨🇴"),
  ("argentina", "🇦🇷"), ("argentine", "🇦🇷"), ("buenos aires", "🇦🇷"),
  ("chile", "🇨🇱"), ("chilean", "🇨🇱"), ("santiago", "🇨🇱"),
  ("peru", "🇵🇪"), ("peruvian", "🇵🇪"), ("lima", "🇵🇪"),
  ("morocco", "🇲🇦"), ("moroccan", "🇲🇦"),
  ("tunisia", "🇹🇳"), ("tunisian", "🇹🇳"),
  ("algeria", "🇩🇿"), ("algerian", "🇩🇿"),
  ("ghana", "🇬🇭"), ("ghanaian", "🇬🇭"),
  ("tanzania", "🇹🇿"), ("tanzanian", "🇹🇿"),
  ("congo", "🇨🇩"),
  ("sudan", "🇸🇩"), ("sudanese", "🇸🇩"), ("khartoum", "🇸🇩"),
  ("libya", "🇱🇾"), ("libyan", "🇱🇾"), ("tripoli", "🇱🇾"),
  ("jordan", "🇯🇴"), ("jordanian", "🇯🇴"), ("amman", "🇯🇴"),
  ("qatar", "🇶🇦"), ("qatari", "🇶🇦"), ("doha", "🇶🇦"),
  ("kuwait", "🇰🇼"), ("kuwaiti", "🇰🇼"),
  ("oman", "🇴🇲"), ("omani", "🇴🇲"),
  ("bahrain", "🇧🇭"), ("bahraini", "🇧🇭"),
  ("europe", "🇪🇺"), ("european", "🇪🇺"), ("brussels", "🇧🇪"),
  ("macron", "🇫🇷"), ("zelensky", "🇺🇦"), ("modi", "🇮🇳"),
  ("uae", "🇦🇪"), ("dubai", "🇦🇪"), ("abu dhabi", "🇦🇪"), ("emirates", "🇦🇪"),
  ("poland", "🇵🇱"), ("polish", "🇵🇱"), ("warsaw", "🇵🇱"),
  ("netherlands", "🇳🇱"), ("dutch", "🇳🇱"), ("amsterdam", "🇳🇱"),
  ("belgium", "🇧🇪"), ("belgian", "🇧🇪"),
  ("sweden", "🇸🇪"), ("swedish", "🇸🇪"), ("stockholm", "🇸🇪"),
  ("norway", "🇳🇴"), ("norwegian", "🇳🇴"), ("oslo", "🇳🇴"),
  ("finland", "🇫🇮"), ("finnish", "🇫🇮"), ("helsinki", "🇫🇮"),
  ("greece", "🇬🇷"), ("greek", "🇬🇷"), ("athens", "🇬🇷"),
  ("portugal", "🇵🇹"), ("portuguese", "🇵🇹"), ("lisbon", "🇵🇹"),
  ("switzerland", "🇨🇭"), ("swiss", "🇨🇭"), ("zurich", "🇨🇭"),
  ("austria", "🇦🇹"), ("austrian", "🇦🇹"), ("vienna", "🇦🇹"),
  ("venezuela", "🇻🇪"), ("venezuelan", "🇻🇪"), ("caracas", "🇻🇪"),
  ("taiwan", "🇹🇼"), ("taiwanese", "🇹🇼"), ("taipei", "🇹🇼"),
  ("singaporean", "🇸🇬"),
  ("burma", "🇲🇲"),
  ("sri lanka", "🇱🇰"), ("sri lankan", "🇱🇰"), ("colombo", "🇱🇰"),
  ("nepal", "🇳🇵"), ("nepalese", "🇳🇵"), ("kathmandu", "🇳🇵"),
  ("new zealand", "🇳🇿"), ("kiwi", "🇳🇿"), ("auckland", "🇳🇿"),
  ("ireland", "🇮🇪"), ("irish", "🇮🇪"), ("dublin", "🇮🇪"),
  ("scotland", "🏴󠁧󠁢󠁳󠁣󠁴󠁿"),
  ("wales", "🏴󠁧󠁢󠁷󠁬󠁳󠁿"),
  ("hong kong", "🇭🇰"),
  ("un", "🇺🇳"), ("united nations", "🇺🇳"),
  ("eu", "🇪🇺"), ("european union", "🇪🇺"),
  ("nato", "🇪🇺"),
  ("belarus", "🇧🇾"), ("belarusian", "🇧🇾"), ("minsk", "🇧🇾"),
  ("lithuania", "🇱🇹"), ("lithuanian", "🇱🇹"),
  ("latvia", "🇱🇻"), ("latvian", "🇱🇻"),
  ("estonia", "🇪🇪"), ("estonian", "🇪🇪")]

/-- Default flag when nothing matches. -/
def US_FLAG : String := "🇺🇸"

/-- `detect_country_flag` from `phase2_generator.py`: scan the table in
insertion order and return the flag of the first keyword occurring in the
lowercased text with word boundaries; default to the US flag. -/
def detect_country_flag (text : String) : String :=
  match COUNTRY_FLAGS.find? (fun p => strBoundary (pyLower text) p.1) with
  | some p => p.2
  | none => US_FLAG

/-- `_HEALTH_SOURCES` inside `categorize_article`. -/
def _HEALTH_SOURCES : List String := [
  "stat news", "stat", "becker", "healthcare dive", "kff health",
  "fierce healthcare", "modern healthcare", "healthleaders",
  "health affairs", "medpage", "advisory board"]

/-- `_BUSINESS_SOURCES` inside `categorize_article`. -/
def _BUSINESS_SOURCES : List String := [
  "financial times", "bloomberg", "wall street journal", "wsj",
  "reuters business", "cnbc", "fortune", "barron", "economist",
  "business insider", "insider", "marketwatch"]

/-- `health_keywords` inside `categorize_article`. -/
def health_keywords : List String := [
  "health", "hospital", "patient", "medical", "medicare", "medicaid",
  "cms", "healthcare", "telehealth", "clinic", "physician", "doctor",
  "rcm", "revenue cycle", "payment plan", "self-pay", "aca",
  "cedar", "flywire", "optum", "unitedhealth", "anthem", "cigna"]

/-- `ai_keywords` inside `categorize_article`. -/
def ai_keywords : List String := [
  "ai", "artificial intelligence", "machine learning", "claude", "gpt",
  "openai", "anthropic", "codex", "cursor", "coding", "developer",
  "agent", "automation", "model", "llm", "enterprise ai"]

/-- `categorize_article` from `phase2_generator.py`: source overrides first,
then headline keyword fallback, `business` as the default. -/
def categorize_article (a : Article) : String :=
  let source := pyLower a.source
  if _HEALTH_SOURCES.any (fun s => strContains source s) then "health"
  else if _BUSINESS_SOURCES.any (fun s => strContains source s) then "business"
  else
    let text := pyLower (a.headline ++ " " ++ source)
    if health_keywords.any (fun k => strContains text k) then "health"
    else if ai_keywords.any (fun k => strContains text k) then "tech"
    else "business"

/-! ### Section assignment (`run_pipeline.categorize_validated_articles`) -/

/-- `_DIGEST_URL_PATTERNS` from `run_pipeline.py`. -/
def _DIGEST_URL_PATTERNS : List String := [
  "up-first", "newsletter", "daily-briefing", "morning-rundown",
  "news-roundup", "5-things", "five-things", "the-daily-digest",
  "morning-edition-highlights", "evening-briefing", "daily-recap",
  "week-in-review", "news-wrap", "headlines-today"]

/-- `_LOCAL_INCLUDE_PATTERNS` from `run_pipeline.py`. -/
def _LOCAL_INCLUDE_PATTERNS : List String := [
  "bart", "caltrain", "muni", "vta", "highway", "traffic", "road closure",
  "bridge", "transit", "commute", "680", "580", "880", "101",
  "freeway", "interchange", "rail", "amtrak",
  "spare the air", "air quality", "heat advisory", "flood warning",
  "storm", "wildfire", "evacuation", "fire warning", "pg&e", "pge",
  "power outage", "weather warning", "red flag", "wind advisory",
  "earthquake", "mudslide", "drought",
  "city council", "board of supervisors", "school board", "school district",
  "ballot measure", "zoning", "planning commission", "town hall",
  "mayor", "supervisor", "county", "ordinance", "municipal",
  "public hearing", "budget", "tax measure",
  "police", "fire department", "accident", "crime", "shooting",
  "missing person", "amber alert", "arrest", "investigation",
  "highway patrol", "chp", "sheriff",
  "festival", "parade", "farmers market", "community meeting",
  "town meeting", "marathon", "fun run", "block party",
  "hospital", "kaiser", "clinic", "health department",
  "vaccination", "covid", "public health",
  "layoff", "closure", "shutdown", "strike"]

/-- `_SPANISH_MARKERS` from `run_pipeline.py`. -/
def _SPANISH_MARKERS : List String := [
  "el", "la", "los", "las", "de", "del", "en", "que", "por", "para",
  "con", "una", "como", "pero", "sobre", "entre", "hasta", "desde",
  "más", "según", "también", "después", "durante", "antes",
  "impacto", "costos", "inscripciones", "conocerá", "varios", "meses",
  "trabajadores", "renuncian", "salud", "pública", "consulta", "médico",
  "atención", "primaria", "registra", "inesperadamente", "altas", "pese",
  "reducción", "subsidios", "retención", "incierta", "aumento"]

/-- Characters of the regex class `[a-záéíóúñü]` used by `_is_non_english`. -/
def isSpanishTokenChar (c : Char) : Bool :=
  ('a' ≤ c ∧ c ≤ 'z') ∨ c = 'á' ∨ c = 'é' ∨ c = 'í' ∨ c = 'ó' ∨ c = 'ú' ∨
    c = 'ñ' ∨ c = 'ü'

/-- `_is_non_english` from `run_pipeline.py`: URL path segments, then the
Spanish-marker fraction of headline words (`> 0.30`, exact as `10·n > 3·len`). -/
def _is_non_english (a : Article) : Bool :=
  (["/es/", "/spanish/", "/espanol/"].any (fun seg => strContains a.url seg)) ||
  (let words := (findRuns isSpanishTokenChar (lowerList a.headline.data)).map
      (fun t => (⟨t⟩ : String))
   if words.length < 3 then false
   else 3 * words.length < 10 * (words.filter (· ∈ _SPANISH_MARKERS)).length)

/-- A digest/newsletter URL (`any(pat in url_path ...)` on the lowercased URL). -/
def isDigest (a : Article) : Bool :=
  _DIGEST_URL_PATTERNS.any (fun p => strContains (pyLower a.url) p)

/-- The local allowlist test on the lowercased headline. -/
def localAllowed (a : Article) : Bool :=
  _LOCAL_INCLUDE_PATTERNS.any (fun p => strContains (pyLower a.headline) p)

/-- `article.get("_score", 0)`: the scoring loop stores `_score` on every
article it reaches; within the non-local pool only digest articles are
skipped before scoring, so they read back the default `0`. -/
def scoreAttr (a : Article) : Int :=
  if isDigest a then 0 else score_article a

/-- `article.get("_category")`: absent (`none`) exactly on digest articles. -/
def catAttr (a : Article) : Option String :=
  if isDigest a then none else some (categorize_article a)

/-- `article.get("_flag", US_FLAG)` source value; absent on digest articles.
The flag text is headline plus source, as in the orchestrator. -/
def flagAttr (a : Article) : Option String :=
  if isDigest a then none else some (detect_country_flag (a.headline ++ " " ++ a.source))

/-- `article.get("_ga_eligible", False)`. -/
def gaEligAttr (a : Article) : Bool :=
  if isDigest a then false else (classify_source_tier a.source a.url).ga_eligible

/-- Stable descending insertion for `list.sort(key=..., reverse=True)`:
an earlier element stays before later elements with an equal key. -/
def insertDescBy (key : Article → Int) (x : Article) : List Article → List Article
  | [] => [x]
  | y :: ys => if key y ≤ key x then x :: y :: ys else y :: insertDescBy key x ys

/-- Stable descending sort (`foldr` of stable insertion = Python's stable sort). -/
def sortByScoreDesc (l : List Article) : List Article :=
  l.foldr (insertDescBy scoreAttr) []

/-- Worker for `_deduplicate_articles`, carrying the kept list. -/
def dedupGo (kept : List Article) : List Article → List Article
  | [] => kept
  | a :: rest =>
    if kept.any (fun x => _is_duplicate_topic a.headline x.headline) then
      dedupGo kept rest
    else dedupGo (kept ++ [a]) rest

/-- `_deduplicate_articles` from `run_pipeline.py`. -/
def _deduplicate_articles (l : List Article) : List Article := dedupGo [] l

/-- The `non_local` pool of `categorize_validated_articles` after filtering,
score-sorting and topic deduplication. -/
def dedupedPool (arts : List Article) : List Article :=
  _deduplicate_articles (sortByScoreDesc (arts.filter
    (fun a => !a.is_local && (a.headline != "") && !(_is_non_english a))))

/-- First pass of Tier 1 selection: walk the ranked pool, cap two per
source, stop at twelve collected. -/
def firstPassGo (counts : String → Nat) (acc : List Article) :
    List Article → List Article
  | [] => acc
  | a :: rest =>
    if counts a.source < 2 then
      if 12 ≤ (acc ++ [a]).length then acc ++ [a]
      else firstPassGo (fun s => if s = a.source then counts s + 1 else counts s)
        (acc ++ [a]) rest
    else firstPassGo counts acc rest

/-- `initial_tier1` of `categorize_validated_articles`. -/
def initialTier1 (pool : List Article) : List Article :=
  firstPassGo (fun _ => 0) [] pool

/-- `cat_order.get(a.get("_category", "business"), 2)`. -/
def catOrderKey (a : Article) : Nat :=
  match (catAttr a).getD "business" with
  | "health" => 0
  | "tech" => 1
  | _ => 2

/-- Strict ascending comparison on `(category order, -score)`. -/
def t1Lt (y x : Article) : Bool :=
  catOrderKey y < catOrderKey x ∨
    (catOrderKey y = catOrderKey x ∧ scoreAttr x < scoreAttr y)

/-- Stable ascending insertion for the final Tier 1 sort. -/
def insertAscT1 (x : Article) : List Article → List Article
  | [] => [x]
  | y :: ys => if t1Lt y x then y :: insertAscT1 x ys else x :: y :: ys

/-- Final Tier 1 ordering: by category priority, then score (stable). -/
def sortTier1 (l : List Article) : List Article := l.foldr insertAscT1 []

/-- The slot-filling loop over the (possibly extended) `initial_tier1`,
with the `used_urls` guard and the six-slot cap checked first. -/
def fillGo (acc : List Article) (used : List String) : List Article → List Article
  | [] => acc
  | a :: rest =>
    if 6 ≤ acc.length then acc
    else if a.url ∈ used then fillGo acc used rest
    else fillGo (acc ++ [a]) (used ++ [a.url]) rest

/-- The forced section-diversity search: the first article of the pool with
the given category that is not already among the picks (`article not in
initial_tier1`, Python value equality). -/
def pickForced (pool initialX : List Article) (cat : String) : Option Article :=
  pool.find? (fun a => decide (catAttr a = some cat ∧ a ∉ initialX))

/-- One diversity-forcing step: when no article of the category was picked,
find one in the pool and append it to both the picks and `initial_tier1`. -/
def diversityExtend (pool : List Article) (cat : String)
    (picks initialX : List Article) : List Article × List Article :=
  if picks = [] then
    match pickForced pool initialX cat with
    | some t => ([t], initialX ++ [t])
    | none => ([], initialX)
  else (picks, initialX)

/-- The guaranteed tech and business slots with their used-URL set. -/
def seedSlots (techP1 bizP1 : List Article) : List Article × List String :=
  match techP1 with
  | [] =>
    match bizP1 with
    | [] => ([], [])
    | b :: _ => ([b], [b.url])
  | t :: _ =>
    match bizP1 with
    | [] => ([t], [t.url])
    | b :: _ => if b.url = t.url then ([t], [t.url]) else ([t, b], [t.url, b.url])

/-- Tier 1 selection of `categorize_validated_articles`: first pass with the
per-source cap, forced best tech/business inclusion when a section is
missing, guaranteed slots, score fill, and the final category sort. -/
def tier1Selection (pool : List Article) : List Article :=
  let initial0 := initialTier1 pool
  let step1 := diversityExtend pool "tech"
    (initial0.filter (fun a => catAttr a = some "tech")) initial0
  let step2 := diversityExtend pool "business"
    (initial0.filter (fun a => catAttr a = some "business")) step1.2
  let seeded := seedSlots step1.1 step2.1
  sortTier1 (fillGo seeded.1 seeded.2 step2.2)

/-- GA pool collection: skip Tier 1 URLs, keep GA-eligible articles with at
most three per source. -/
def gaPoolGo (counts : String → Nat) (acc : List Article) (t1urls : List String) :
    List Article → List Article
  | [] => acc
  | a :: rest =>
    if a.url ∈ t1urls then gaPoolGo counts acc t1urls rest
    else if gaEligAttr a then
      if counts a.source < 3 then
        gaPoolGo (fun s => if s = a.source then counts s + 1 else counts s)
          (acc ++ [a]) t1urls rest
      else gaPoolGo counts acc t1urls rest
    else gaPoolGo counts acc t1urls rest

/-- GA deduplication against Tier 1 and the already-selected GA items. -/
def gaDedupGo (t1 : List Article) (kept : List Article) :
    List Article → List Article
  | [] => kept
  | a :: rest =>
    if t1.any (fun x => _is_duplicate_topic a.headline x.headline) then
      gaDedupGo t1 kept rest
    else if kept.any (fun x => _is_duplicate_topic a.headline x.headline) then
      gaDedupGo t1 kept rest
    else gaDedupGo t1 (kept ++ [a]) rest

/-- The GA flag with its default (`a.get("_flag", US_FLAG)`). -/
def gaFlag (a : Article) : String := (flagAttr a).getD US_FLAG

/-- GA selection of `categorize_validated_articles`: pool, dedup, top ten,
the US-cap swap pass, and the final score sort. -/
def gaSelection (pool : List Article) (t1 : List Article) : List Article :=
  let t1urls := t1.map (fun a => a.url)
  let gaPool := gaPoolGo (fun _ => 0) [] t1urls pool
  let deduped := gaDedupGo t1 [] gaPool
  let top := deduped.take 10
  let usTop := top.filter (fun a => gaFlag a = US_FLAG)
  let intlTop := top.filter (fun a => gaFlag a ≠ US_FLAG)
  let ga :=
    if 4 < usTop.length then
      let intlRemaining := (deduped.drop 10).filter (fun a => gaFlag a ≠ US_FLAG)
      intlTop ++ usTop.take 4 ++ intlRemaining.take (usTop.length - 4)
    else top
  sortByScoreDesc ga

/-- The three selected output lists. -/
structure Categorized where
  tier1_candidates : List Article
  ga_candidates : List Article
  local_candidates : List Article
deriving DecidableEq, Repr

/-- The local bucket collected by the first loop: non-digest, headline
present, locality-flagged, allowlist-matched. -/
def localSelection (arts : List Article) : List Article :=
  arts.filter (fun a => (a.headline != "") && !(isDigest a) && a.is_local && localAllowed a)

/-- `categorize_validated_articles` from `run_pipeline.py`. -/
def categorize_validated_articles (arts : List Article) : Categorized :=
  let pool := dedupedPool arts
  let t1 := tier1Selection pool
  ⟨t1, gaSelection pool t1, localSelection arts⟩

/-! ### C1: the duplicate-topic check on the spec's Scenario A pair -/

/-- C1: the spec (and the function's own docstring) state that the pair
"OpenAI introduces ads in ChatGPT" / "OpenAI tests ChatGPT ads for free
users" is flagged as a duplicate topic.  The code returns `false`: the
brand-alias step maps `chatgpt` to `openai`, collapsing the shared tokens
to `{openai, ads}`, so the Jaccard ratio is 2/6 < 0.40 and the shared
count 2 misses the ≥ 3 floor of the coverage rule.  This theorem evaluates
the embedded check at that failing input. -/
theorem C1_scenario_pair_not_flagged :
    _is_duplicate_topic "OpenAI introduces ads in ChatGPT"
      "OpenAI tests ChatGPT ads for free users" = false := by decide

/-! ### C2: the freshness boundary of `validate_one` -/

/-- C2: for a candidate whose wrapper resolution did not fail and whose
fetch succeeded, a computed age of exactly `MAX_AGE_HOURS` is bucketed
`valid` and `MAX_AGE_HOURS + 1` is bucketed `stale`, both on the extracted
date path and on the search-date fallback path. -/
theorem C2_freshness_boundary (e : CandEnv) (p : FetchedPage)
    (hres : ¬(e.isGoogleNews ∧ e.resolved = none)) (hf : e.fetch = .ok p) :
    (p.pubAge = some (some MAX_AGE_HOURS) → validate_one e = .valid) ∧
    (p.pubAge = some (some (MAX_AGE_HOURS + 1)) → validate_one e = .stale) ∧
    (p.pubAge = none → p.searchAge = some (some MAX_AGE_HOURS) →
      validate_one e = .valid) ∧
    (p.pubAge = none → p.searchAge = some (some (MAX_AGE_HOURS + 1)) →
      validate_one e = .stale) := by
  unfold validate_one
  rw [if_neg hres, hf]
  refine ⟨?_, ?_, ?_, ?_⟩
  · intro h
    show pageVerdict p = _
    unfold pageVerdict
    rw [h]
    rfl
  · intro h
    show pageVerdict p = _
    unfold pageVerdict
    rw [h]
    rfl
  · intro h0 h1
    show pageVerdict p = _
    unfold pageVerdict
    rw [h0, h1]
    rfl
  · intro h0 h1
    show pageVerdict p = _
    unfold pageVerdict
    rw [h0, h1]
    rfl

/-- A candidate fetched with a page whose extracted date gives age exactly 48. -/
def envAt48 : CandEnv := ⟨false, none, .ok ⟨some (some 48), none⟩⟩

/-- A candidate fetched with a page whose extracted date gives age 49. -/
def envAt49 : CandEnv := ⟨false, none, .ok ⟨some (some 49), none⟩⟩

theorem C2_freshness_boundary_witness :
    validate_one envAt48 = .valid ∧ validate_one envAt49 = .stale :=
  ⟨(C2_freshness_boundary envAt48 ⟨some (some 48), none⟩ (by decide) rfl).1 rfl,
   (C2_freshness_boundary envAt49 ⟨some (some 49), none⟩ (by decide) rfl).2.1 rfl⟩

/-! ### C3: the verdict partition of `_validate_concurrent` -/

theorem addToBucket_sizes (b : ValBuckets) (e : CandEnv) :
    (addToBucket b e).valid.length + (addToBucket b e).stale.length +
      (addToBucket b e).unverified.length + (addToBucket b e).error.length =
    b.valid.length + b.stale.length + b.unverified.length + b.error.length + 1 := by
  unfold addToBucket
  cases validate_one e <;> simp <;> omega

theorem foldl_addToBucket_sizes : ∀ (l : List CandEnv) (b : ValBuckets),
    (l.foldl addToBucket b).valid.length + (l.foldl addToBucket b).stale.length +
      (l.foldl addToBucket b).unverified.length +
      (l.foldl addToBucket b).error.length =
    b.valid.length + b.stale.length + b.unverified.length + b.error.length +
      l.length := by
  intro l
  induction l with
  | nil => intro b; simp
  | cons e rest ih =>
    intro b
    have h := addToBucket_sizes b e
    simp only [List.foldl_cons, List.length_cons]
    rw [ih (addToBucket b e)]
    omega

/-- C3: every candidate of the validation stage lands in exactly one of the
four buckets (the bucket sizes sum to the input size), `validate_one` is
total with a verdict among the four labels, and a fetch exception is caught
and bucketed as `error`. -/
theorem C3_bucket_partition :
    (∀ l : List CandEnv,
      (_validate_concurrent l).valid.length + (_validate_concurrent l).stale.length +
        (_validate_concurrent l).unverified.length +
        (_validate_concurrent l).error.length = l.length) ∧
    (∀ e : CandEnv,
      validate_one e = .valid ∨ validate_one e = .stale ∨
        validate_one e = .unverified ∨ validate_one e = .error) ∧
    (∀ (e : CandEnv) (msg : String), e.fetch = .error msg →
      validate_one e = .error) := by
  refine ⟨?_, ?_, ?_⟩
  · intro l
    have h := foldl_addToBucket_sizes l ⟨[], [], [], []⟩
    simpa [_validate_concurrent] using h
  · intro e
    cases h : validate_one e <;> simp
  · intro e msg h
    simp [validate_one, h, ite_self]

/-- An environment whose fetch raised a (modelled) request exception. -/
def envTimeout : CandEnv := ⟨false, none, .error "ReadTimeout"⟩

theorem C3_bucket_partition_witness :
    validate_one envTimeout = .error ∧
    (_validate_concurrent [envTimeout, envAt48]).valid.length +
      (_validate_concurrent [envTimeout, envAt48]).stale.length +
      (_validate_concurrent [envTimeout, envAt48]).unverified.length +
      (_validate_concurrent [envTimeout, envAt48]).error.length = 2 :=
  ⟨C3_bucket_partition.2.2 envTimeout "ReadTimeout" rfl,
   C3_bucket_partition.1 [envTimeout, envAt48]⟩

/-! ### C4: URL deduplication -/

theorem mem_dedupUrlGo_not_seen : ∀ (l : List Cand) (seen : List String)
    (c : Cand), c ∈ dedupUrlGo seen l → normalizeUrlCode c.url ∉ seen := by
  intro l
  induction l with
  | nil => intro seen c hc; simp [dedupUrlGo] at hc
  | cons a rest ih =>
    intro seen c hc
    unfold dedupUrlGo at hc
    by_cases h : normalizeUrlCode a.url ≠ "" ∧ normalizeUrlCode a.url ∉ seen
    · rw [if_pos h] at hc
      rcases List.mem_cons.mp hc with rfl | hmem
      · exact h.2
      · intro hcontra
        exact ih _ _ hmem (List.mem_cons_of_mem _ hcontra)
    · rw [if_neg h] at hc
      exact ih _ _ hc

theorem dedupUrlGo_pairwise : ∀ (l : List Cand) (seen : List String),
    (dedupUrlGo seen l).Pairwise
      (fun a b => normalizeUrlCode a.url ≠ normalizeUrlCode b.url) := by
  intro l
  induction l with
  | nil => intro seen; simp [dedupUrlGo]
  | cons a rest ih =>
    intro seen
    unfold dedupUrlGo
    by_cases h : normalizeUrlCode a.url ≠ "" ∧ normalizeUrlCode a.url ∉ seen
    · rw [if_pos h]
      refine List.Pairwise.cons ?_ (ih _)
      intro b hb
      have hnot := mem_dedupUrlGo_not_seen _ _ _ hb
      intro heq
      exact hnot (heq ▸ List.mem_cons_self _ _)
    · rw [if_neg h]
      exact ih _

/-- The two candidates of Scenario E: same page up to a trailing slash and
a query string. -/
def candSlash : Cand := ⟨"https://example.com/news/", "Story", "Site"⟩

/-- See `candSlash`. -/
def candQuery : Cand := ⟨"https://example.com/news?utm=1", "Story again", "Site"⟩

/-- Two candidates differing only in the URL scheme. -/
def candHttp : Cand := ⟨"http://example.com/news", "Story", "Site"⟩

/-- See `candHttp`. -/
def candHttps : Cand := ⟨"https://example.com/news", "Story again", "Site"⟩

/-- C4 counterexample: the code's URL normalization does not strip the
scheme.  Two candidates identical up to `http`/`https` have equal
spec-normalized URLs, yet both survive `deduplicate_candidates`, so the
claimed uniqueness invariant (under scheme-stripping normalization) fails. -/
theorem C4_counterexample_scheme_kept :
    specNormalizeUrl candHttp.url = specNormalizeUrl candHttps.url ∧
    normalizeUrlCode candHttp.url ≠ normalizeUrlCode candHttps.url ∧
    deduplicate_candidates [candHttp, candHttps] = [candHttp, candHttps] := by
  refine ⟨by decide, by decide, by decide⟩

/-- C4 amended: after `deduplicate_candidates` no two surviving candidates
share a code-normalized URL, where the code's normalization strips the query
string and trailing slashes but keeps the scheme; candidates differing only
by trailing slash or query still collapse to one survivor. -/
theorem C4_amended_url_dedup :
    (∀ cs : List Cand, (deduplicate_candidates cs).Pairwise
      (fun a b => normalizeUrlCode a.url ≠ normalizeUrlCode b.url)) ∧
    deduplicate_candidates [candSlash, candQuery] = [candSlash] :=
  ⟨fun cs => dedupUrlGo_pairwise cs [], by decide⟩

/-! ### C5: the per-source cap of the Tier 1 selection -/

/-- Number of articles of a list stating the given source. -/
def countSource (l : List Article) (s : String) : Nat :=
  (l.filter (fun a => a.source = s)).length

theorem countSource_append (l1 l2 : List Article) (s : String) :
    countSource (l1 ++ l2) s = countSource l1 s + countSource l2 s := by
  simp [countSource, List.filter_append]

theorem countSource_singleton (a : Article) (s : String) :
    countSource [a] s = if a.source = s then 1 else 0 := by
  simp only [countSource, List.filter]
  by_cases h : a.source = s
  · simp [h]
  · simp [h]

theorem firstPassGo_count : ∀ (l : List Article) (counts : String → Nat)
    (acc : List Article), (∀ t, countSource acc t = counts t) →
    (∀ t, counts t ≤ 2) → ∀ s, countSource (firstPassGo counts acc l) s ≤ 2 := by
  intro l
  induction l with
  | nil =>
    intro counts acc hinv hle s
    unfold firstPassGo
    rw [hinv s]
    exact hle s
  | cons a rest ih =>
    intro counts acc hinv hle s
    unfold firstPassGo
    by_cases hc : counts a.source < 2
    · rw [if_pos hc]
      by_cases hlen : 12 ≤ (acc ++ [a]).length
      · rw [if_pos hlen]
        rw [countSource_append, countSource_singleton, hinv s]
        by_cases hs : a.source = s
        · rw [if_pos hs]
          have := hs ▸ hc
          omega
        · rw [if_neg hs]
          have := hle s
          omega
      · rw [if_neg hlen]
        apply ih
        · intro t
          rw [countSource_append, countSource_singleton, hinv t]
          by_cases ht : t = a.source
          · subst ht
            simp
          · rw [if_neg (fun h => ht h.symm), if_neg ht]
            omega
        · intro t
          by_cases ht : t = a.source
          · rw [if_pos ht]
            subst ht
            omega
          · rw [if_neg ht]
            exact hle t
    · rw [if_neg hc]
      exact ih counts acc hinv hle s

/-- First article of the C5 counterexample run (source "Example Daily"). -/
def cxA1 : Article :=
  ⟨"Hospital launches patient financing program", "https://example.com/a1",
    "Example Daily", false⟩

/-- Second article of the C5 counterexample run. -/
def cxA2 : Article :=
  ⟨"Medicare and Medicaid weigh telehealth coverage changes",
    "https://example.com/a2", "Example Daily", false⟩

/-- Third article of the C5 counterexample run (the only tech candidate). -/
def cxA3 : Article :=
  ⟨"OpenAI releases coding model update", "https://example.com/a3",
    "Example Daily", false⟩

/-- C5 counterexample: on this pool the first pass picks two "Example
Daily" articles (the cap), but the section-diversity floor then forces in
the best tech article, which is also from "Example Daily": the final Tier 1
set carries three items of one source, exceeding the per-source cap of 2. -/
theorem C5_counterexample_cap_exceeded :
    countSource (categorize_validated_articles [cxA1, cxA2, cxA3]).tier1_candidates
      "Example Daily" = 3 := by decide

/-- C5 amended: the per-source cap of 2 holds for the score-ranked first
pass of the Tier 1 selection; the subsequent section-diversity forcing may
add a tech and a business article beyond the cap (see the counterexample),
so the full Tier 1 set is not bound by it. -/
theorem C5_amended_first_pass_cap (pool : List Article) (s : String) :
    countSource (initialTier1 pool) s ≤ 2 :=
  firstPassGo_count pool (fun _ => 0) [] (fun _ => rfl) (fun _ => Nat.zero_le 2) s

/-! ### C6: domain remap in the source tier classifier -/

/-- C6 counterexample: the URL domain remap applies (the fragment
`prnewswire.com` maps to "PR Newswire", a Tier 3 source), yet the
caller-stated name "BBC" still decides the classification: the result is
Tier 1, not the domain-mapped Tier 3.  The stated name is not overridden —
`names_to_check` keeps the raw stated name alongside the mapped one. -/
theorem C6_counterexample_stated_name_wins :
    domainLookup (pyLower "https://www.prnewswire.com/news/x") = some "PR Newswire" ∧
    (classify_source_tier "PR Newswire" "https://www.prnewswire.com/news/x").tier = 3 ∧
    (classify_source_tier "BBC" "https://www.prnewswire.com/news/x").tier = 1 ∧
    (classify_source_tier "BBC" "https://www.prnewswire.com/news/x").ga_eligible = true :=
  ⟨by decide, by decide, by decide, by decide⟩

theorem remapName_of_lookup {n0 u m : String} (h : domainLookup u = some m) :
    remapName n0 u = pyLower m := by
  unfold remapName
  rw [h]

theorem tierDecision_raw_out (n raw : String) (h1 : raw ∉ TIER1_SOURCES)
    (h2 : raw ∉ TIER2_SOURCES) (h3 : raw ∉ TIER3_SOURCES)
    (h4 : raw ∉ LOCAL_SOURCES) : tierDecision n raw = tierDecision n n := by
  unfold tierDecision
  simp only [or_iff_left h1, or_iff_left h2, or_iff_left h3, or_iff_left h4,
    or_self]

/-- C6 amended: when the domain remap applies, it replaces only the
normalized stated name; the raw lowercased stated name is still checked
alongside.  Hence the domain-mapped name decides the tier exactly when the
raw stated name belongs to no tier table; otherwise the stated name can
still decide (see the counterexample). -/
theorem C6_amended_domain_remap (name url m : String)
    (hm : domainLookup (pyLower url) = some m)
    (hraw : pyLower ⟨pyStrip name.data⟩ ∉ TIER1_SOURCES ∧
      pyLower ⟨pyStrip name.data⟩ ∉ TIER2_SOURCES ∧
      pyLower ⟨pyStrip name.data⟩ ∉ TIER3_SOURCES ∧
      pyLower ⟨pyStrip name.data⟩ ∉ LOCAL_SOURCES) :
    (classify_source_tier name url).tier = (classify_source_tier m url).tier ∧
    (classify_source_tier name url).ga_eligible =
      (classify_source_tier m url).ga_eligible := by
  have hmem : m ∈ DOMAIN_TO_SOURCE.map Prod.snd := by
    unfold domainLookup at hm
    obtain ⟨q, hq, hq2⟩ := Option.map_eq_some'.mp hm
    exact hq2 ▸ List.mem_map_of_mem Prod.snd (List.mem_of_find?_eq_some hq)
  have hL1 : (classify_source_tier name url).tier =
      (tierDecision (pyLower m) (pyLower ⟨pyStrip name.data⟩)).1 := by
    show (tierDecision (remapName _ (pyLower url)) _).1 = _
    rw [remapName_of_lookup hm]
  have hL2 : (classify_source_tier name url).ga_eligible =
      (tierDecision (pyLower m) (pyLower ⟨pyStrip name.data⟩)).2.1 := by
    show (tierDecision (remapName _ (pyLower url)) _).2.1 = _
    rw [remapName_of_lookup hm]
  have hR1 : (classify_source_tier m url).tier =
      (tierDecision (pyLower m) (pyLower ⟨pyStrip m.data⟩)).1 := by
    show (tierDecision (remapName _ (pyLower url)) _).1 = _
    rw [remapName_of_lookup hm]
  have hR2 : (classify_source_tier m url).ga_eligible =
      (tierDecision (pyLower m) (pyLower ⟨pyStrip m.data⟩)).2.1 := by
    show (tierDecision (remapName _ (pyLower url)) _).2.1 = _
    rw [remapName_of_lookup hm]
  rw [hL1, hL2, hR1, hR2,
    tierDecision_raw_out _ _ hraw.1 hraw.2.1 hraw.2.2.1 hraw.2.2.2]
  simp only [DOMAIN_TO_SOURCE, List.map_cons, List.map_nil, List.mem_cons,
    List.not_mem_nil, or_false] at hmem
  rcases hmem with rfl | rfl | rfl | rfl | rfl | rfl | rfl | rfl | rfl | rfl <;>
    exact ⟨by decide, by decide⟩

theorem C6_amended_domain_remap_witness :
    (classify_source_tier "Random Blog" "https://www.globenewswire.com/release/1").tier =
      (classify_source_tier "GlobeNewsWire" "https://www.globenewswire.com/release/1").tier ∧
    (classify_source_tier "Random Blog" "https://www.globenewswire.com/release/1").ga_eligible =
      (classify_source_tier "GlobeNewsWire" "https://www.globenewswire.com/release/1").ga_eligible :=
  C6_amended_domain_remap "Random Blog" "https://www.globenewswire.com/release/1"
    "GlobeNewsWire" (by decide) ⟨by decide, by decide, by decide, by decide⟩

/-! ### C7: country flag detection -/

/-- C7 counterexample: for a text containing "north korea", the table scan
returns the South Korean flag of the earlier, shorter keyword "korea", not
the flag of the more specific entry "north korea" that also matches with
word boundaries — matching is first-in-table-order, not longest/most
specific. -/
theorem C7_counterexample_first_match_wins :
    detect_country_flag "North Korea tests missile" = "🇰🇷" ∧
    ("north korea", "🇰🇵") ∈ COUNTRY_FLAGS ∧
    strBoundary (pyLower "North Korea tests missile") "north korea" = true ∧
    ("🇰🇷" : String) ≠ "🇰🇵" :=
  ⟨by decide, by decide, by decide, by decide⟩

theorem find?_eq_of_first_match {α : Type} (p : α → Bool) :
    ∀ (l : List α) (i : Nat) (h : i < l.length), p (l.get ⟨i, h⟩) = true →
    (∀ j (hj : j < i), p (l.get ⟨j, Nat.lt_trans hj h⟩) = false) →
    l.find? p = some (l.get ⟨i, h⟩) := by
  intro l
  induction l with
  | nil =>
    intro i h
    simp at h
  | cons a rest ih =>
    intro i h hp hfirst
    cases i with
    | zero => exact List.find?_cons_of_pos _ hp
    | succ n =>
      have h0 : p a = false := hfirst 0 (Nat.succ_pos n)
      rw [List.find?_cons_of_neg _ (by simp [h0])]
      exact ih n (Nat.lt_of_succ_lt_succ h) hp
        (fun j hj => hfirst (j + 1) (Nat.succ_lt_succ hj))

/-- C7 amended: `detect_country_flag` returns the flag of the first keyword
in table insertion order that occurs in the lowercased text with word
boundaries (US default when none matches); a longer, more specific keyword
listed after a matching shorter one is never selected. -/
theorem C7_amended_first_match (text : String) (i : Nat)
    (h : i < COUNTRY_FLAGS.length)
    (hmatch : strBoundary (pyLower text) (COUNTRY_FLAGS.get ⟨i, h⟩).1 = true)
    (hfirst : ∀ j (hj : j < i),
      strBoundary (pyLower text) ((COUNTRY_FLAGS.get ⟨j, Nat.lt_trans hj h⟩).1) = false) :
    detect_country_flag text = (COUNTRY_FLAGS.get ⟨i, h⟩).2 := by
  unfold detect_country_flag
  rw [find?_eq_of_first_match (fun p => strBoundary (pyLower text) p.1)
    COUNTRY_FLAGS i h hmatch hfirst]

set_option maxRecDepth 8192 in
theorem C7_amended_first_match_witness :
    detect_country_flag "Pyongyang parade" = "🇰🇵" := by
  have h := C7_amended_first_match "Pyongyang parade" 38 (by decide) (by decide)
    (by decide)
  exact h.trans (by decide)

/-! ### C8: age computation -/

/-- C8: `compute_age_hours` is non-negative; on a non-negative difference it
is the whole number of hours rounded down (`Int.fdiv`), and any negative
difference is floored to zero rather than rejected. -/
theorem C8_age_nonnegative_floor (d : Int) :
    0 ≤ compute_age_hours d ∧
    (0 ≤ d → compute_age_hours d = d.fdiv 3600) ∧
    (d < 0 → compute_age_hours d = 0) := by
  refine ⟨le_max_left _ _, ?_, ?_⟩
  · intro hd
    unfold compute_age_hours
    rw [Int.tdiv_eq_ediv hd (by decide), Int.fdiv_eq_ediv _ (by decide)]
    exact max_eq_right (Int.ediv_nonneg hd (by decide))
  · intro hd
    unfold compute_age_hours
    have h : d.tdiv 3600 ≤ 0 := by
      have h1 : (0 : Int) ≤ -d := by omega
      have h2 := Int.tdiv_nonneg h1 (by decide : (0 : Int) ≤ 3600)
      rw [Int.neg_tdiv] at h2
      omega
    exact max_eq_left h

theorem C8_age_nonnegative_floor_witness :
    compute_age_hours 180000 = Int.fdiv 180000 3600 ∧
      compute_age_hours (-7200) = 0 :=
  ⟨(C8_age_nonnegative_floor 180000).2.1 (by decide),
   (C8_age_nonnegative_floor (-7200)).2.2 (by decide)⟩

/-! ### C9: the pairwise non-duplicate invariant of the selected sets -/

/-- No two distinct articles of the list are duplicate topics. -/
def pairwiseNonDup (l : List Article) : Prop :=
  ∀ x ∈ l, ∀ y ∈ l, x ≠ y → _is_duplicate_topic x.headline y.headline = false

theorem pairwiseNonDup_subset {l m : List Article} (h : ∀ x ∈ l, x ∈ m)
    (hm : pairwiseNonDup m) : pairwiseNonDup l :=
  fun x hx y hy hne => hm x (h x hx) y (h y hy) hne

theorem pairwiseNonDup_nil : pairwiseNonDup [] :=
  fun x hx => absurd hx (List.not_mem_nil x)

theorem pairwiseNonDup_append_one {kept : List Article} {a : Article}
    (hk : pairwiseNonDup kept)
    (hall : ∀ x ∈ kept, _is_duplicate_topic a.headline x.headline = false) :
    pairwiseNonDup (kept ++ [a]) := by
  intro x hx y hy hne
  rcases List.mem_append.mp hx with hxk | hxa
  · rcases List.mem_append.mp hy with hyk | hya
    · exact hk x hxk y hyk hne
    · have : y = a := by simpa using hya
      subst this
      rw [isDup_symm]
      exact hall x hxk
  · have : x = a := by simpa using hxa
    subst this
    rcases List.mem_append.mp hy with hyk | hya
    · exact hall y hyk
    · have : y = x := by simpa using hya
      exact absurd this.symm hne

theorem dedupGo_pairwise : ∀ (l kept : List Article), pairwiseNonDup kept →
    pairwiseNonDup (dedupGo kept l) := by
  intro l
  induction l with
  | nil => intro kept hk; exact hk
  | cons a rest ih =>
    intro kept hk
    unfold dedupGo
    by_cases hdup : kept.any (fun x => _is_duplicate_topic a.headline x.headline) = true
    · rw [if_pos hdup]
      exact ih kept hk
    · rw [if_neg hdup]
      refine ih _ (pairwiseNonDup_append_one hk ?_)
      intro x hx
      have h := List.any_eq_false.mp (eq_false_of_ne_true hdup) x hx
      simpa using h

theorem gaDedupGo_pairwise : ∀ (l t1 kept : List Article), pairwiseNonDup kept →
    pairwiseNonDup (gaDedupGo t1 kept l) := by
  intro l
  induction l with
  | nil => intro t1 kept hk; exact hk
  | cons a rest ih =>
    intro t1 kept hk
    unfold gaDedupGo
    by_cases ht : t1.any (fun x => _is_duplicate_topic a.headline x.headline) = true
    · rw [if_pos ht]
      exact ih t1 kept hk
    · rw [if_neg ht]
      by_cases hdup : kept.any (fun x => _is_duplicate_topic a.headline x.headline) = true
      · rw [if_pos hdup]
        exact ih t1 kept hk
      · rw [if_neg hdup]
        refine ih _ _ (pairwiseNonDup_append_one hk ?_)
        intro x hx
        have h := List.any_eq_false.mp (eq_false_of_ne_true hdup) x hx
        simpa using h

theorem mem_insertDescBy (key : Article → Int) (a : Article) :
    ∀ (l : List Article) (x : Article), x ∈ insertDescBy key a l → x = a ∨ x ∈ l := by
  intro l
  induction l with
  | nil =>
    intro x hx
    unfold insertDescBy at hx
    left
    simpa using hx
  | cons y ys ih =>
    intro x hx
    unfold insertDescBy at hx
    by_cases h : key y ≤ key a
    · rw [if_pos h] at hx
      rcases List.mem_cons.mp hx with rfl | hx2
      · exact Or.inl rfl
      · exact Or.inr hx2
    · rw [if_neg h] at hx
      rcases List.mem_cons.mp hx with rfl | hx2
      · exact Or.inr (List.mem_cons_self _ _)
      · rcases ih x hx2 with rfl | hx3
        · exact Or.inl rfl
        · exact Or.inr (List.mem_cons_of_mem _ hx3)

theorem mem_sortByScoreDesc : ∀ (l : List Article) (x : Article),
    x ∈ sortByScoreDesc l → x ∈ l := by
  intro l
  induction l with
  | nil => intro x hx; simp [sortByScoreDesc] at hx
  | cons a rest ih =>
    intro x hx
    simp only [sortByScoreDesc, List.foldr_cons] at hx
    rcases mem_insertDescBy scoreAttr a _ x hx with rfl | hx2
    · exact List.mem_cons_self _ _
    · exact List.mem_cons_of_mem _ (ih x hx2)

theorem mem_insertAscT1 (a : Article) : ∀ (l : List Article) (x : Article),
    x ∈ insertAscT1 a l → x = a ∨ x ∈ l := by
  intro l
  induction l with
  | nil =>
    intro x hx
    unfold insertAscT1 at hx
    left
    simpa using hx
  | cons y ys ih =>
    intro x hx
    unfold insertAscT1 at hx
    by_cases h : t1Lt y a = true
    · rw [if_pos h] at hx
      rcases List.mem_cons.mp hx with rfl | hx2
      · exact Or.inr (List.mem_cons_self _ _)
      · rcases ih x hx2 with rfl | hx3
        · exact Or.inl rfl
        · exact Or.inr (List.mem_cons_of_mem _ hx3)
    · rw [if_neg h] at hx
      rcases List.mem_cons.mp hx with rfl | hx2
      · exact Or.inl rfl
      · exact Or.inr hx2

theorem mem_sortTier1 : ∀ (l : List Article) (x : Article),
    x ∈ sortTier1 l → x ∈ l := by
  intro l
  induction l with
  | nil => intro x hx; simp [sortTier1] at hx
  | cons a rest ih =>
    intro x hx
    simp only [sortTier1, List.foldr_cons] at hx
    rcases mem_insertAscT1 a _ x hx with rfl | hx2
    · exact List.mem_cons_self _ _
    · exact List.mem_cons_of_mem _ (ih x hx2)

theorem mem_dedupGo : ∀ (l kept : List Article) (x : Article),
    x ∈ dedupGo kept l → x ∈ kept ∨ x ∈ l := by
  intro l
  induction l with
  | nil => intro kept x hx; exact Or.inl hx
  | cons a rest ih =>
    intro kept x hx
    unfold dedupGo at hx
    by_cases hdup : kept.any (fun e => _is_duplicate_topic a.headline e.headline) = true
    · rw [if_pos hdup] at hx
      rcases ih kept x hx with hk | hr
      · exact Or.inl hk
      · exact Or.inr (List.mem_cons_of_mem _ hr)
    · rw [if_neg hdup] at hx
      rcases ih _ x hx with hk | hr
      · rcases List.mem_append.mp hk with hk2 | ha
        · exact Or.inl hk2
        · have : x = a := by simpa using ha
          exact Or.inr (this ▸ List.mem_cons_self _ _)
      · exact Or.inr (List.mem_cons_of_mem _ hr)

theorem mem_firstPassGo : ∀ (l : List Article) (counts : String → Nat)
    (acc : List Article) (x : Article),
    x ∈ firstPassGo counts acc l → x ∈ acc ∨ x ∈ l := by
  intro l
  induction l with
  | nil => intro counts acc x hx; exact Or.inl hx
  | cons a rest ih =>
    intro counts acc x hx
    unfold firstPassGo at hx
    by_cases hc : counts a.source < 2
    · rw [if_pos hc] at hx
      by_cases hlen : 12 ≤ (acc ++ [a]).length
      · rw [if_pos hlen] at hx
        rcases List.mem_append.mp hx with hk | ha
        · exact Or.inl hk
        · have : x = a := by simpa using ha
          exact Or.inr (this ▸ List.mem_cons_self _ _)
      · rw [if_neg hlen] at hx
        rcases ih _ _ x hx with hk | hr
        · rcases List.mem_append.mp hk with hk2 | ha
          · exact Or.inl hk2
          · have : x = a := by simpa using ha
            exact Or.inr (this ▸ List.mem_cons_self _ _)
        · exact Or.inr (List.mem_cons_of_mem _ hr)
    · rw [if_neg hc] at hx
      rcases ih _ _ x hx with hk | hr
      · exact Or.inl hk
      · exact Or.inr (List.mem_cons_of_mem _ hr)

theorem mem_fillGo : ∀ (l : List Article) (acc : List Article)
    (used : List String) (x : Article),
    x ∈ fillGo acc used l → x ∈ acc ∨ x ∈ l := by
  intro l
  induction l with
  | nil => intro acc used x hx; exact Or.inl hx
  | cons a rest ih =>
    intro acc used x hx
    unfold fillGo at hx
    by_cases h6 : 6 ≤ acc.length
    · rw [if_pos h6] at hx
      exact Or.inl hx
    · rw [if_neg h6] at hx
      by_cases hu : a.url ∈ used
      · rw [if_pos hu] at hx
        rcases ih _ _ x hx with hk | hr
        · exact Or.inl hk
        · exact Or.inr (List.mem_cons_of_mem _ hr)
      · rw [if_neg hu] at hx
        rcases ih _ _ x hx with hk | hr
        · rcases List.mem_append.mp hk with hk2 | ha
          · exact Or.inl hk2
          · have : x = a := by simpa using ha
            exact Or.inr (this ▸ List.mem_cons_self _ _)
        · exact Or.inr (List.mem_cons_of_mem _ hr)

theorem mem_gaPoolGo : ∀ (l : List Article) (counts : String → Nat)
    (acc : List Article) (t1urls : List String) (x : Article),
    x ∈ gaPoolGo counts acc t1urls l → x ∈ acc ∨ x ∈ l := by
  intro l
  induction l with
  | nil => intro counts acc t1urls x hx; exact Or.inl hx
  | cons a rest ih =>
    intro counts acc t1urls x hx
    unfold gaPoolGo at hx
    by_cases ht : a.url ∈ t1urls
    · rw [if_pos ht] at hx
      rcases ih _ _ _ x hx with hk | hr
      · exact Or.inl hk
      · exact Or.inr (List.mem_cons_of_mem _ hr)
    · rw [if_neg ht] at hx
      by_cases he : gaEligAttr a = true
      · rw [if_pos he] at hx
        by_cases hc : counts a.source < 3
        · rw [if_pos hc] at hx
          rcases ih _ _ _ x hx with hk | hr
          · rcases List.mem_append.mp hk with hk2 | ha
            · exact Or.inl hk2
            · have : x = a := by simpa using ha
              exact Or.inr (this ▸ List.mem_cons_self _ _)
          · exact Or.inr (List.mem_cons_of_mem _ hr)
        · rw [if_neg hc] at hx
          rcases ih _ _ _ x hx with hk | hr
          · exact Or.inl hk
          · exact Or.inr (List.mem_cons_of_mem _ hr)
      · rw [if_neg he] at hx
        rcases ih _ _ _ x hx with hk | hr
        · exact Or.inl hk
        · exact Or.inr (List.mem_cons_of_mem _ hr)

theorem mem_gaDedupGo : ∀ (l t1 kept : List Article) (x : Article),
    x ∈ gaDedupGo t1 kept l → x ∈ kept ∨ x ∈ l := by
  intro l
  induction l with
  | nil => intro t1 kept x hx; exact Or.inl hx
  | cons a rest ih =>
    intro t1 kept x hx
    unfold gaDedupGo at hx
    by_cases ht : t1.any (fun e => _is_duplicate_topic a.headline e.headline) = true
    · rw [if_pos ht] at hx
      rcases ih _ _ x hx with hk | hr
      · exact Or.inl hk
      · exact Or.inr (List.mem_cons_of_mem _ hr)
    · rw [if_neg ht] at hx
      by_cases hdup : kept.any (fun e => _is_duplicate_topic a.headline e.headline) = true
      · rw [if_pos hdup] at hx
        rcases ih _ _ x hx with hk | hr
        · exact Or.inl hk
        · exact Or.inr (List.mem_cons_of_mem _ hr)
      · rw [if_neg hdup] at hx
        rcases ih _ _ x hx with hk | hr
        · rcases List.mem_append.mp hk with hk2 | ha
          · exact Or.inl hk2
          · have : x = a := by simpa using ha
            exact Or.inr (this ▸ List.mem_cons_self _ _)
        · exact Or.inr (List.mem_cons_of_mem _ hr)

theorem mem_initialTier1 (pool : List Article) (x : Article)
    (hx : x ∈ initialTier1 pool) : x ∈ pool := by
  rcases mem_firstPassGo pool _ [] x hx with hk | hr
  · exact absurd hk (List.not_mem_nil x)
  · exact hr

theorem mem_pickForced {pool initialX : List Article} {cat : String} {t : Article}
    (h : pickForced pool initialX cat = some t) : t ∈ pool :=
  List.mem_of_find?_eq_some h

theorem mem_diversityExtend_fst {pool : List Article} {cat : String}
    {picks initialX : List Article} {x : Article}
    (hx : x ∈ (diversityExtend pool cat picks initialX).1) :
    x ∈ picks ∨ x ∈ pool := by
  unfold diversityExtend at hx
  by_cases h : picks = []
  · rw [if_pos h] at hx
    cases hfind : pickForced pool initialX cat with
    | none => rw [hfind] at hx; simp at hx
    | some t =>
      rw [hfind] at hx
      have : x = t := by simpa using hx
      exact Or.inr (this ▸ mem_pickForced hfind)
  · rw [if_neg h] at hx
    exact Or.inl hx

theorem mem_diversityExtend_snd {pool : List Article} {cat : String}
    {picks initialX : List Article} {x : Article}
    (hx : x ∈ (diversityExtend pool cat picks initialX).2) :
    x ∈ initialX ∨ x ∈ pool := by
  unfold diversityExtend at hx
  by_cases h : picks = []
  · rw [if_pos h] at hx
    cases hfind : pickForced pool initialX cat with
    | none => rw [hfind] at hx; exact Or.inl hx
    | some t =>
      rw [hfind] at hx
      rcases List.mem_append.mp hx with hk | ha
      · exact Or.inl hk
      · have : x = t := by simpa using ha
        exact Or.inr (this ▸ mem_pickForced hfind)
  · rw [if_neg h] at hx
    exact Or.inl hx

theorem mem_seedSlots {techP1 bizP1 : List Article} {x : Article}
    (hx : x ∈ (seedSlots techP1 bizP1).1) : x ∈ techP1 ∨ x ∈ bizP1 := by
  cases techP1 with
  | nil =>
    cases bizP1 with
    | nil => simp [seedSlots] at hx
    | cons b bs =>
      simp only [seedSlots] at hx
      have hx2 : x ∈ [b] := hx
      have : x = b := by simpa using hx2
      exact Or.inr (this ▸ List.mem_cons_self _ _)
  | cons t ts =>
    cases bizP1 with
    | nil =>
      simp only [seedSlots] at hx
      have hx2 : x ∈ [t] := hx
      have : x = t := by simpa using hx2
      exact Or.inl (this ▸ List.mem_cons_self _ _)
    | cons b bs =>
      simp only [seedSlots] at hx
      by_cases h : b.url = t.url
      · rw [if_pos h] at hx
        have hx2 : x ∈ [t] := hx
        have : x = t := by simpa using hx2
        exact Or.inl (this ▸ List.mem_cons_self _ _)
      · rw [if_neg h] at hx
        have hx2 : x ∈ [t, b] := hx
        rcases List.mem_cons.mp hx2 with rfl | hx3
        · exact Or.inl (List.mem_cons_self _ _)
        · have : x = b := by simpa using hx3
          exact Or.inr (this ▸ List.mem_cons_self _ _)

theorem tier1Selection_subset (pool : List Article) (x : Article)
    (hx : x ∈ tier1Selection pool) : x ∈ pool := by
  simp only [tier1Selection] at hx
  have h1 := mem_sortTier1 _ x hx
  rcases mem_fillGo _ _ _ x h1 with hseed | hinit
  · rcases mem_seedSlots hseed with htech | hbiz
    · rcases mem_diversityExtend_fst htech with hp | hp
      · exact mem_initialTier1 pool x (List.mem_of_mem_filter hp)
      · exact hp
    · rcases mem_diversityExtend_fst hbiz with hp | hp
      · exact mem_initialTier1 pool x (List.mem_of_mem_filter hp)
      · exact hp
  · rcases mem_diversityExtend_snd hinit with hp | hp
    · rcases mem_diversityExtend_snd hp with hq | hq
      · exact mem_initialTier1 pool x hq
      · exact hq
    · exact hp

theorem gaSelection_subset (pool t1 : List Article) (x : Article)
    (hx : x ∈ gaSelection pool t1) :
    x ∈ gaDedupGo t1 []
      (gaPoolGo (fun _ => 0) [] (t1.map (fun a => a.url)) pool) := by
  simp only [gaSelection] at hx
  have h1 := mem_sortByScoreDesc _ x hx
  set deduped := gaDedupGo t1 []
    (gaPoolGo (fun _ => 0) [] (t1.map (fun a => a.url)) pool) with hdef
  by_cases hus : 4 < (List.filter (fun a => gaFlag a = US_FLAG) (deduped.take 10)).length
  · rw [if_pos hus] at h1
    rcases List.mem_append.mp h1 with h2 | h2
    · rcases List.mem_append.mp h2 with h3 | h3
      · exact List.take_subset _ _ (List.mem_of_mem_filter h3)
      · exact List.take_subset _ _
          (List.mem_of_mem_filter (List.take_subset _ _ h3))
    · exact List.drop_subset _ _
        (List.mem_of_mem_filter (List.take_subset _ _ h2))
  · rw [if_neg hus] at h1
    exact List.take_subset _ _ h1

/-- C9: after topic deduplication no two distinct articles of the
deduplicated pool are duplicate topics, and the same holds inside the
selected Tier 1 set (a subset of the pool) and inside the GA set (a subset
of the GA-deduplicated list, which is additionally deduplicated against
Tier 1). -/
theorem C9_dedup_invariant (arts : List Article) :
    pairwiseNonDup (dedupedPool arts) ∧
    pairwiseNonDup (categorize_validated_articles arts).tier1_candidates ∧
    pairwiseNonDup (categorize_validated_articles arts).ga_candidates := by
  have hpool : pairwiseNonDup (dedupedPool arts) :=
    dedupGo_pairwise _ [] pairwiseNonDup_nil
  refine ⟨hpool, ?_, ?_⟩
  · show pairwiseNonDup (tier1Selection (dedupedPool arts))
    exact pairwiseNonDup_subset (fun x hx => tier1Selection_subset _ x hx) hpool
  · show pairwiseNonDup
      (gaSelection (dedupedPool arts) (tier1Selection (dedupedPool arts)))
    exact pairwiseNonDup_subset
      (fun x hx => gaSelection_subset _ _ x hx)
      (gaDedupGo_pairwise _ _ [] pairwiseNonDup_nil)

theorem C9_dedup_invariant_witness :
    _is_duplicate_topic cxA1.headline cxA3.headline = false :=
  (C9_dedup_invariant [cxA1, cxA3]).2.1 cxA1 (by decide) cxA3 (by decide)
    (by decide)

/-! ### C10: read-time bounds -/

/-- C10: for every extracted word count (hence for every HTML input, whose
word count is some natural number, the empty page included),
`estimate_read_time` is between 2 and 20 inclusive. -/
theorem C10_read_time_bounds (wordCount : Nat) :
    2 ≤ estimate_read_time wordCount ∧ estimate_read_time wordCount ≤ 20 := by
  unfold estimate_read_time
  omega

end Briefing
